import Mathlib

/-!
Verification of the BSIE pipeline state core: a shallow embedding of
`src/bsie/state/constants.py`, `src/bsie/state/types.py` and
`src/bsie/state/controller.py` together with the persisted records of
`src/bsie/db/models/statement.py` and `src/bsie/db/models/state_history.py`.

The durable store is modelled as an explicit value (a list of statement
records and an append-only journal list, oldest row first, mirroring the
`ORDER BY created_at` read order of rows inserted at distinct instants);
each controller method becomes a pure function from the store value to a
new store value plus its return value, so a successful call's record
mutation and journal append happen in one step, mirroring the single
`session.commit()` of the Python code.  Wall-clock timestamp fields
(`timestamp`, `created_at`, `updated_at`) and the generated journal row id
play no role in any verified property and are omitted from the embedding.
-/

namespace BSIE

/-- The 13 pipeline states of `State` in `constants.py`. -/
inductive State where
  | UPLOADED
  | INGESTED
  | CLASSIFIED
  | ROUTED
  | TEMPLATE_SELECTED
  | TEMPLATE_MISSING
  | EXTRACTION_READY
  | EXTRACTING
  | EXTRACTION_FAILED
  | RECONCILING
  | RECONCILIATION_FAILED
  | HUMAN_REVIEW_REQUIRED
  | COMPLETED
deriving DecidableEq, Repr, Fintype

/-- The string `.value` of each `State` enum member. -/
def State.value : State → String
  | .UPLOADED => "UPLOADED"
  | .INGESTED => "INGESTED"
  | .CLASSIFIED => "CLASSIFIED"
  | .ROUTED => "ROUTED"
  | .TEMPLATE_SELECTED => "TEMPLATE_SELECTED"
  | .TEMPLATE_MISSING => "TEMPLATE_MISSING"
  | .EXTRACTION_READY => "EXTRACTION_READY"
  | .EXTRACTING => "EXTRACTING"
  | .EXTRACTION_FAILED => "EXTRACTION_FAILED"
  | .RECONCILING => "RECONCILING"
  | .RECONCILIATION_FAILED => "RECONCILIATION_FAILED"
  | .HUMAN_REVIEW_REQUIRED => "HUMAN_REVIEW_REQUIRED"
  | .COMPLETED => "COMPLETED"

/-- `TRANSITION_MATRIX` of `constants.py`: every state is a key of the
Python dict, so the embedding is a total function to the listed set
(rendered as a duplicate-free list). -/
def TRANSITION_MATRIX : State → List State
  | .UPLOADED => [.INGESTED, .HUMAN_REVIEW_REQUIRED]
  | .INGESTED => [.CLASSIFIED]
  | .CLASSIFIED => [.ROUTED]
  | .ROUTED => [.TEMPLATE_SELECTED, .TEMPLATE_MISSING]
  | .TEMPLATE_SELECTED => [.EXTRACTION_READY]
  | .TEMPLATE_MISSING => [.HUMAN_REVIEW_REQUIRED]
  | .EXTRACTION_READY => [.EXTRACTING]
  | .EXTRACTING => [.RECONCILING, .EXTRACTION_FAILED]
  | .EXTRACTION_FAILED => [.HUMAN_REVIEW_REQUIRED]
  | .RECONCILING => [.COMPLETED, .RECONCILIATION_FAILED]
  | .RECONCILIATION_FAILED => [.HUMAN_REVIEW_REQUIRED]
  | .HUMAN_REVIEW_REQUIRED => [.COMPLETED, .EXTRACTION_READY]
  | .COMPLETED => []

/-- `STATE_TIMEOUTS` of `constants.py` (seconds, `none` = no timeout). -/
def STATE_TIMEOUTS : State → Option Nat
  | .UPLOADED => some 30
  | .ROUTED => some 5
  | .EXTRACTION_READY => some 10
  | .EXTRACTING => some 120
  | .RECONCILING => some 10
  | .HUMAN_REVIEW_REQUIRED => some (7 * 24 * 3600)
  | _ => none

/-- `STATE_REQUIRED_ARTIFACTS` of `constants.py`; `none` models a state
absent from the dict. -/
def STATE_REQUIRED_ARTIFACTS : State → Option (List String)
  | .INGESTED => some ["ingest_receipt"]
  | .CLASSIFIED => some ["classification"]
  | .ROUTED => some ["route_decision"]
  | .RECONCILING => some ["extraction_result", "transactions"]
  | .COMPLETED => some ["reconciliation", "final_transactions"]
  | _ => none

/-- `get_allowed_transitions` of `constants.py`: `TRANSITION_MATRIX.get(from_state, set())`.
Every state is a key of the dict, so the default never fires. -/
def get_allowed_transitions (from_state : State) : List State :=
  TRANSITION_MATRIX from_state

/-- `is_valid_transition` of `constants.py`: `to_state in get_allowed_transitions(from_state)`. -/
def is_valid_transition (from_state to_state : State) : Bool :=
  (get_allowed_transitions from_state).contains to_state

/-- A Python value as far as the controller inspects one: metadata and
artifact payloads are free-form, the controller only ever compares an
`expected_version` entry against an `int` and stores the rest opaquely. -/
inductive Value where
  | vNone
  | vInt (n : Int)
  | vStr (s : String)
  | vBool (b : Bool)
deriving DecidableEq, Repr

/-- Python `==` between the stored `state_version` (an `int`) and a
metadata value; Python `bool` is an `int` subtype (`True == 1`). -/
def Value.pyEqNat : Value → Nat → Bool
  | .vInt n, v => n == (v : Int)
  | .vBool b, v => (if b then (1 : Int) else 0) == (v : Int)
  | _, _ => false

/-- A string-keyed Python dict as the controller consumes one
(`metadata`, `artifacts`): an association list without duplicate keys. -/
abbrev StrDict := List (String × Value)

/-- `d.get(k)`: `some` value at the key, `none` when the key is absent. -/
def StrDict.get (d : StrDict) (k : String) : Option Value :=
  (d.find? (fun p => p.1 == k)).map Prod.snd

/-- `list(d.keys())`. -/
def StrDict.keys (d : StrDict) : List String :=
  d.map Prod.fst

/-- `k in d` (dict key membership). -/
def StrDict.hasKey (d : StrDict) (k : String) : Bool :=
  d.any (fun p => p.1 == k)

/-- `TransitionError` of `types.py`. -/
inductive TransitionError where
  | INVALID_TRANSITION
  | MISSING_ARTIFACT
  | VALIDATION_FAILED
  | CONCURRENT_MODIFICATION
  | STATE_NOT_FOUND
  | TIMEOUT
deriving DecidableEq, Repr

/-- `TransitionResult` of `types.py` (timestamp omitted, see file header;
`duration_ms` is never set by the controller and is omitted). -/
structure TransitionResult where
  success : Bool
  previous_state : String
  current_state : String
  statement_id : String
  error : Option String := none
  error_type : Option TransitionError := none
  artifacts_created : List String := []
  metadata : StrDict := []
deriving DecidableEq, Repr

/-- The `Statement` record of `db/models/statement.py`, restricted to the
columns the state controller reads or writes.  `current_state` is stored
as a member of the closed state set (the controller writes only
`State.value` strings and re-validates with `State(...)` on load). -/
structure Statement where
  id : String
  sha256 : String
  original_filename : String
  file_size_bytes : Nat
  page_count : Nat
  storage_path : Option String
  current_state : State
  state_version : Nat
deriving DecidableEq, Repr

/-- The `StateHistory` journal row of `db/models/state_history.py`
(generated row id, `duration_ms` and `created_at` omitted; `none` list /
dict columns model SQL NULL for fields a writer did not pass). -/
structure StateHistory where
  statement_id : String
  from_state : Option State
  to_state : State
  trigger : String
  worker_id : Option String := none
  artifacts_created : Option (List String) := none
  transition_metadata : Option StrDict := none
deriving DecidableEq, Repr

/-- The durable store: statement records plus the append-only journal,
oldest row first. -/
structure DB where
  statements : List Statement
  history : List StateHistory
deriving DecidableEq, Repr

/-- `get_statement`: point lookup of the record by primary key. -/
def getStatement (db : DB) (statement_id : String) : Option Statement :=
  db.statements.find? (fun s => s.id == statement_id)

/-- `get_current_state`: the record's state, `none` when the id is absent. -/
def get_current_state (db : DB) (statement_id : String) : Option State :=
  (getStatement db statement_id).map Statement.current_state

/-- `get_state_history`: journal rows of one statement, oldest first. -/
def get_state_history (db : DB) (statement_id : String) : List StateHistory :=
  db.history.filter (fun h => h.statement_id == statement_id)

/-- In-place mutation of a loaded ORM record: the store keeps the updated
record at the statement's primary key. -/
def setStatement (l : List Statement) (st : Statement) : List Statement :=
  l.map (fun s => if s.id == st.id then st else s)

/-- `get_required_artifacts` of the controller:
`STATE_REQUIRED_ARTIFACTS.get(to_state, [])`. -/
def get_required_artifacts (to_state : State) : List String :=
  (STATE_REQUIRED_ARTIFACTS to_state).getD []

/-- The controller's optimistic-lock test, from
`expected_version is not None and statement.state_version != expected_version`:
`true` when the check passes (no mismatch), i.e. the key is absent, is
Python `None`, or equals the stored version. -/
def expectedVersionOk (metadata : StrDict) (version : Nat) : Bool :=
  match StrDict.get metadata "expected_version" with
  | none => true
  | some .vNone => true
  | some v => v.pyEqNat version

/-- `StateController.transition` of `controller.py`: load the record,
check optimistic lock, legality, required artifacts, in that order; on
success mutate the record, append the journal row and commit, returning
the new store plus the `TransitionResult`.  Every failure branch returns
the store unchanged. -/
def transition (db : DB) (statement_id : String) (to_state : State)
    (trigger : String) (artifacts : StrDict := []) (worker_id : Option String := none)
    (metadata : StrDict := []) : DB × TransitionResult :=
  match getStatement db statement_id with
  | none =>
    (db,
      { success := false
        previous_state := "UNKNOWN"
        current_state := "UNKNOWN"
        statement_id := statement_id
        error := some ("Statement " ++ statement_id ++ " not found")
        error_type := some .STATE_NOT_FOUND })
  | some statement =>
    let from_state := statement.current_state
    if ¬ expectedVersionOk metadata statement.state_version then
      (db,
        { success := false
          previous_state := from_state.value
          current_state := from_state.value
          statement_id := statement_id
          error := some "Version mismatch"
          error_type := some .CONCURRENT_MODIFICATION })
    else if ¬ is_valid_transition from_state to_state then
      (db,
        { success := false
          previous_state := from_state.value
          current_state := from_state.value
          statement_id := statement_id
          error := some ("Invalid transition: " ++ from_state.value ++ " -> " ++ to_state.value)
          error_type := some .INVALID_TRANSITION })
    else
      let required_artifacts := get_required_artifacts to_state
      let missing := required_artifacts.filter (fun a => !(artifacts.hasKey a))
      if missing ≠ [] then
        (db,
          { success := false
            previous_state := from_state.value
            current_state := from_state.value
            statement_id := statement_id
            error := some ("Missing required artifacts: " ++ String.intercalate ", " missing)
            error_type := some .MISSING_ARTIFACT })
      else
        let statement' :=
          { statement with current_state := to_state, state_version := statement.state_version + 1 }
        let history_entry : StateHistory :=
          { statement_id := statement_id
            from_state := some from_state
            to_state := to_state
            trigger := trigger
            worker_id := worker_id
            artifacts_created := some artifacts.keys
            transition_metadata := some metadata }
        ({ statements := setStatement db.statements statement'
           history := db.history ++ [history_entry] },
          { success := true
            previous_state := from_state.value
            current_state := to_state.value
            statement_id := statement_id
            artifacts_created := artifacts.keys
            metadata := metadata })

/-- `StateController.force_transition` of `controller.py`: admin override,
no validation; mutates the record, appends a journal row whose metadata
carries `actor`, `reason` and `forced = True`, and commits. -/
def force_transition (db : DB) (statement_id : String) (to_state : State)
    (reason : String) (actor : String) : DB × TransitionResult :=
  match getStatement db statement_id with
  | none =>
    (db,
      { success := false
        previous_state := "UNKNOWN"
        current_state := "UNKNOWN"
        statement_id := statement_id
        error := some ("Statement " ++ statement_id ++ " not found")
        error_type := some .STATE_NOT_FOUND })
  | some statement =>
    let from_state := statement.current_state
    let statement' :=
      { statement with current_state := to_state, state_version := statement.state_version + 1 }
    let history_entry : StateHistory :=
      { statement_id := statement_id
        from_state := some from_state
        to_state := to_state
        trigger := "admin_force"
        transition_metadata :=
          some [("actor", .vStr actor), ("reason", .vStr reason), ("forced", .vBool true)] }
    ({ statements := setStatement db.statements statement'
       history := db.history ++ [history_entry] },
      { success := true
        previous_state := from_state.value
        current_state := to_state.value
        statement_id := statement_id
        metadata := [("transition_type", .vStr "forced"), ("actor", .vStr actor)] })

/-- `StateController.create_statement` of `controller.py`: persist a new
record in `UPLOADED` at version 1 together with its creation journal row
(`from_state = None`, trigger `"upload"`) in one commit. -/
def create_statement (db : DB) (statement_id sha256 original_filename : String)
    (file_size_bytes page_count : Nat) (storage_path : Option String := none) :
    DB × Statement :=
  let statement : Statement :=
    { id := statement_id
      sha256 := sha256
      original_filename := original_filename
      file_size_bytes := file_size_bytes
      page_count := page_count
      storage_path := storage_path
      current_state := .UPLOADED
      state_version := 1 }
  let history_entry : StateHistory :=
    { statement_id := statement_id
      from_state := none
      to_state := .UPLOADED
      trigger := "upload" }
  ({ statements := db.statements ++ [statement]
     history := db.history ++ [history_entry] },
    statement)

/-- One controller call in a statement's lifecycle after creation. -/
inductive Op where
  | trans (to_state : State) (trigger : String) (artifacts : StrDict)
      (worker_id : Option String) (metadata : StrDict)
  | force (to_state : State) (reason actor : String)
deriving Repr

/-- Run one lifecycle call against the store (the result is dropped;
rejected attempts leave the store unchanged). -/
def applyOp (db : DB) (statement_id : String) : Op → DB
  | .trans to_state trigger artifacts worker_id metadata =>
      (transition db statement_id to_state trigger artifacts worker_id metadata).1
  | .force to_state reason actor =>
      (force_transition db statement_id to_state reason actor).1

/-- Run a sequence of lifecycle calls, oldest first. -/
def runOps (db : DB) (statement_id : String) (ops : List Op) : DB :=
  ops.foldl (fun d op => applyOp d statement_id op) db

/-- Replay a journal, oldest row first, re-applying each
`from_state → to_state` pair: the reconstructed current state, `none` for
an empty journal. -/
def replay (rows : List StateHistory) : Option State :=
  rows.foldl (fun _ r => some r.to_state) none

/-! ### Store lemmas -/

/-- Updating the loaded record in place leaves it the one found at its
primary key. -/
theorem find?_setStatement (l : List Statement) (id : String) (st st' : Statement)
    (h : l.find? (fun s => s.id == id) = some st) (hid : st'.id = st.id) :
    (setStatement l st').find? (fun s => s.id == id) = some st' := by
  have hst : st.id = id := by
    have := List.find?_some h
    simpa using this
  induction l with
  | nil => simp [List.find?] at h
  | cons a l ih =>
    by_cases ha : a.id = id
    · have haeq : a = st := by
        rw [List.find?_cons_of_pos _ (by simpa using ha)] at h
        exact Option.some.inj h
      have hcond : (a.id == st'.id) = true := by simp [hid, ← haeq]
      have hpred : (st'.id == id) = true := by simp [hid, hst]
      simp only [setStatement, List.map_cons, hcond, if_true]
      rw [List.find?_cons_of_pos _ (by simpa using hpred)]
    · have hfind : l.find? (fun s => s.id == id) = some st := by
        rw [List.find?_cons_of_neg _ (by simpa using ha)] at h
        exact h
      have hcond : (a.id == st'.id) = false := by
        simp only [hid, hst, beq_eq_false_iff_ne, ne_eq]
        exact ha
      simp only [setStatement, List.map_cons, hcond, Bool.false_eq_true, if_false]
      rw [List.find?_cons_of_neg _ (by simpa using ha)]
      exact ih hfind

/-- A fresh record appended to the store is found at its primary key. -/
theorem find?_append_fresh (l : List Statement) (id : String) (st : Statement)
    (hfresh : ∀ s ∈ l, s.id ≠ id) (hid : st.id = id) :
    ((l ++ [st]).find? (fun s => s.id == id)) = some st := by
  have h1 : l.find? (fun s => s.id == id) = none :=
    List.find?_eq_none.mpr (fun s hs => by simpa using hfresh s hs)
  rw [List.find?_append, h1]
  simp [List.find?, hid]

/-- Replaying a journal extended by one row lands on that row's target. -/
theorem replay_append (rows : List StateHistory) (r : StateHistory) :
    replay (rows ++ [r]) = some r.to_state := by
  simp [replay, List.foldl_append]

/-! ### Lifecycle invariant -/

/-- Invariant tying a statement's record to its journal: the record
exists, replaying its journal reconstructs `current_state`, and the
journal row count equals `state_version`. -/
def LifecycleInv (db : DB) (statement_id : String) : Prop :=
  ∃ st, getStatement db statement_id = some st ∧
    replay (get_state_history db statement_id) = some st.current_state ∧
    (get_state_history db statement_id).length = st.state_version

/-- On the success path, `transition` replaces the record with the bumped
copy and appends one journal row. -/
theorem transition_db_success (db : DB) (statement_id : String) (st : Statement)
    (to_state : State) (trigger : String) (artifacts : StrDict)
    (worker_id : Option String) (metadata : StrDict)
    (hfound : getStatement db statement_id = some st)
    (hver : expectedVersionOk metadata st.state_version = true)
    (hedge : is_valid_transition st.current_state to_state = true)
    (hmiss : (get_required_artifacts to_state).filter (fun a => !(artifacts.hasKey a)) = []) :
    (transition db statement_id to_state trigger artifacts worker_id metadata).1 =
      { statements := setStatement db.statements
          { st with current_state := to_state, state_version := st.state_version + 1 }
        history := db.history ++ [⟨statement_id, some st.current_state, to_state, trigger,
          worker_id, some artifacts.keys, some metadata⟩] } := by
  simp [transition, hfound, hver, hedge, hmiss]

/-- `create_statement` establishes the lifecycle invariant for a fresh
statement id. -/
theorem lifecycleInv_create
    (db : DB) (statement_id sha256 original_filename : String)
    (file_size_bytes page_count : Nat) (storage_path : Option String)
    (hst : ∀ s ∈ db.statements, s.id ≠ statement_id)
    (hhist : ∀ r ∈ db.history, r.statement_id ≠ statement_id) :
    LifecycleInv (create_statement db statement_id sha256 original_filename
      file_size_bytes page_count storage_path).1 statement_id := by
  have hfilter : db.history.filter (fun h => h.statement_id == statement_id) = [] :=
    List.filter_eq_nil_iff.mpr (fun r hr => by simpa using hhist r hr)
  refine ⟨⟨statement_id, sha256, original_filename, file_size_bytes, page_count,
    storage_path, .UPLOADED, 1⟩, ?_, ?_, ?_⟩
  · simp only [create_statement, getStatement]
    exact find?_append_fresh db.statements statement_id _ hst rfl
  · simp [create_statement, get_state_history, List.filter_append, hfilter, replay]
  · simp [create_statement, get_state_history, List.filter_append, hfilter]

/-- Every lifecycle call — accepted or rejected, organic or forced —
preserves the lifecycle invariant. -/
theorem lifecycleInv_applyOp (db : DB) (statement_id : String) (op : Op)
    (h : LifecycleInv db statement_id) :
    LifecycleInv (applyOp db statement_id op) statement_id := by
  obtain ⟨st, hfind, hreplay, hlen⟩ := h
  have hfind' := hfind
  simp only [getStatement] at hfind'
  cases op with
  | trans to_state trigger artifacts worker_id metadata =>
    by_cases hver : expectedVersionOk metadata st.state_version = true
    · by_cases hedge : is_valid_transition st.current_state to_state = true
      · by_cases hmiss : (get_required_artifacts to_state).filter
            (fun a => !(artifacts.hasKey a)) = []
        · have hdb := transition_db_success db statement_id st to_state trigger artifacts
            worker_id metadata hfind hver hedge hmiss
          refine ⟨{ st with current_state := to_state, state_version := st.state_version + 1 }, ?_, ?_, ?_⟩
          · simp only [applyOp, hdb, getStatement]
            exact find?_setStatement db.statements statement_id st
              { st with current_state := to_state, state_version := st.state_version + 1 }
              hfind' rfl
          · simp only [applyOp, hdb, get_state_history, List.filter_append]
            simp [replay, List.foldl_append]
          · simp only [applyOp, hdb, get_state_history, List.filter_append]
            simp only [get_state_history] at hlen
            simp [hlen]
        · have hdb : (transition db statement_id to_state trigger artifacts
              worker_id metadata).1 = db := by
            simp [transition, hfind, hver, hedge, hmiss]
          exact ⟨st, by simp only [applyOp, hdb]; exact hfind,
            by simp only [applyOp, hdb]; exact hreplay,
            by simp only [applyOp, hdb]; exact hlen⟩
      · have hdb : (transition db statement_id to_state trigger artifacts
            worker_id metadata).1 = db := by
          simp [transition, hfind, hver, hedge]
        exact ⟨st, by simp only [applyOp, hdb]; exact hfind,
          by simp only [applyOp, hdb]; exact hreplay,
          by simp only [applyOp, hdb]; exact hlen⟩
    · have hdb : (transition db statement_id to_state trigger artifacts
          worker_id metadata).1 = db := by
        simp [transition, hfind, hver]
      exact ⟨st, by simp only [applyOp, hdb]; exact hfind,
        by simp only [applyOp, hdb]; exact hreplay,
        by simp only [applyOp, hdb]; exact hlen⟩
  | force to_state reason actor =>
    refine ⟨{ st with current_state := to_state, state_version := st.state_version + 1 }, ?_, ?_, ?_⟩
    · simp only [applyOp, force_transition, hfind]
      simp only [getStatement]
      exact find?_setStatement db.statements statement_id st
        { st with current_state := to_state, state_version := st.state_version + 1 }
        hfind' rfl
    · simp only [applyOp, force_transition, hfind, get_state_history, List.filter_append]
      simp [replay, List.foldl_append]
    · simp only [applyOp, force_transition, hfind, get_state_history, List.filter_append]
      simp only [get_state_history] at hlen
      simp [hlen]

/-- A whole sequence of lifecycle calls preserves the invariant. -/
theorem lifecycleInv_runOps (db : DB) (statement_id : String) (ops : List Op)
    (h : LifecycleInv db statement_id) :
    LifecycleInv (runOps db statement_id ops) statement_id := by
  induction ops generalizing db with
  | nil => exact h
  | cons op ops ih => exact ih _ (lifecycleInv_applyOp db statement_id op h)

/-! ### The transition graph of the specification -/

/-- Transcription of the concrete MVP transition graph of spec section
4.2, written from the spec's own table so it can be compared against the
code's `TRANSITION_MATRIX`. -/
def specTransitionGraph : State → List State
  | .UPLOADED => [.INGESTED, .HUMAN_REVIEW_REQUIRED]
  | .INGESTED => [.CLASSIFIED]
  | .CLASSIFIED => [.ROUTED]
  | .ROUTED => [.TEMPLATE_SELECTED, .TEMPLATE_MISSING]
  | .TEMPLATE_SELECTED => [.EXTRACTION_READY]
  | .TEMPLATE_MISSING => [.HUMAN_REVIEW_REQUIRED]
  | .EXTRACTION_READY => [.EXTRACTING]
  | .EXTRACTING => [.RECONCILING, .EXTRACTION_FAILED]
  | .EXTRACTION_FAILED => [.HUMAN_REVIEW_REQUIRED]
  | .RECONCILING => [.COMPLETED, .RECONCILIATION_FAILED]
  | .RECONCILIATION_FAILED => [.HUMAN_REVIEW_REQUIRED]
  | .HUMAN_REVIEW_REQUIRED => [.COMPLETED, .EXTRACTION_READY]
  | .COMPLETED => []

/-! ### Claim theorems -/

/-- C7: the legal-transition relation of the State Catalog is exactly the
13-state graph of spec section 4.2 — for every state the allowed
destination set coincides with the spec's listed set — and
`get_allowed_transitions COMPLETED` is empty. -/
theorem C7_transition_graph_matches_spec :
    (∀ s t : State, t ∈ get_allowed_transitions s ↔ t ∈ specTransitionGraph s) ∧
    get_allowed_transitions .COMPLETED = [] := by
  constructor
  · decide
  · rfl

/-- C1: for an existing record with no `expected_version` mismatch, a
target outside the transition matrix's destination set for the current
state yields a failed result with error kind `INVALID_TRANSITION`, and
the store — in particular the record's `current_state` and
`state_version` — is unchanged. -/
theorem C1_invalid_transition_rejected
    (db : DB) (statement_id : String) (st : Statement) (to_state : State)
    (trigger : String) (artifacts : StrDict) (worker_id : Option String) (metadata : StrDict)
    (hfound : getStatement db statement_id = some st)
    (hver : expectedVersionOk metadata st.state_version = true)
    (hedge : is_valid_transition st.current_state to_state = false) :
    (transition db statement_id to_state trigger artifacts worker_id metadata).2.success = false ∧
    (transition db statement_id to_state trigger artifacts worker_id metadata).2.error_type =
      some .INVALID_TRANSITION ∧
    (transition db statement_id to_state trigger artifacts worker_id metadata).1 = db ∧
    getStatement (transition db statement_id to_state trigger artifacts worker_id metadata).1
      statement_id = some st := by
  simp [transition, hfound, hver, hedge]

/-- C1 witness: a record in `ROUTED` asked to jump to `COMPLETED`. -/
theorem C1_invalid_transition_rejected_witness :
    getStatement ⟨[⟨"s1", "h1", "f.pdf", 10, 2, none, .ROUTED, 1⟩], []⟩ "s1" =
      some ⟨"s1", "h1", "f.pdf", 10, 2, none, .ROUTED, 1⟩ ∧
    expectedVersionOk [] 1 = true ∧
    is_valid_transition .ROUTED .COMPLETED = false ∧
    ((transition ⟨[⟨"s1", "h1", "f.pdf", 10, 2, none, .ROUTED, 1⟩], []⟩ "s1" .COMPLETED
        "t" [] none []).2.success = false ∧
      (transition ⟨[⟨"s1", "h1", "f.pdf", 10, 2, none, .ROUTED, 1⟩], []⟩ "s1" .COMPLETED
        "t" [] none []).2.error_type = some .INVALID_TRANSITION ∧
      (transition ⟨[⟨"s1", "h1", "f.pdf", 10, 2, none, .ROUTED, 1⟩], []⟩ "s1" .COMPLETED
        "t" [] none []).1 = ⟨[⟨"s1", "h1", "f.pdf", 10, 2, none, .ROUTED, 1⟩], []⟩ ∧
      getStatement (transition ⟨[⟨"s1", "h1", "f.pdf", 10, 2, none, .ROUTED, 1⟩], []⟩ "s1"
        .COMPLETED "t" [] none []).1 "s1" =
        some ⟨"s1", "h1", "f.pdf", 10, 2, none, .ROUTED, 1⟩) :=
  ⟨by decide, by decide, by decide,
    C1_invalid_transition_rejected _ "s1" ⟨"s1", "h1", "f.pdf", 10, 2, none, .ROUTED, 1⟩
      .COMPLETED "t" [] none [] (by decide) (by decide) (by decide)⟩

/-- C3: an `expected_version` in `metadata` that differs from the stored
`state_version` makes `transition` fail with `CONCURRENT_MODIFICATION`
and no mutation, for every target state whatsoever — the version check
precedes the legality check, so even an illegal edge reports the version
conflict. -/
theorem C3_version_mismatch_precedes_legality
    (db : DB) (statement_id : String) (st : Statement) (to_state : State)
    (trigger : String) (artifacts : StrDict) (worker_id : Option String) (metadata : StrDict)
    (n : Int)
    (hfound : getStatement db statement_id = some st)
    (hev : StrDict.get metadata "expected_version" = some (.vInt n))
    (hne : n ≠ (st.state_version : Int)) :
    (transition db statement_id to_state trigger artifacts worker_id metadata).2.success = false ∧
    (transition db statement_id to_state trigger artifacts worker_id metadata).2.error_type =
      some .CONCURRENT_MODIFICATION ∧
    (transition db statement_id to_state trigger artifacts worker_id metadata).1 = db := by
  have hver : expectedVersionOk metadata st.state_version = false := by
    simp [expectedVersionOk, hev, Value.pyEqNat, hne]
  simp [transition, hfound, hver]

/-- C3 witness: stored version 1, caller expects 5, illegal edge
`ROUTED → COMPLETED`; the reported error is the version conflict. -/
theorem C3_version_mismatch_precedes_legality_witness :
    getStatement ⟨[⟨"s1", "h1", "f.pdf", 10, 2, none, .ROUTED, 1⟩], []⟩ "s1" =
      some ⟨"s1", "h1", "f.pdf", 10, 2, none, .ROUTED, 1⟩ ∧
    StrDict.get [("expected_version", .vInt 5)] "expected_version" = some (.vInt 5) ∧
    (5 : Int) ≠ ((1 : Nat) : Int) ∧
    ((transition ⟨[⟨"s1", "h1", "f.pdf", 10, 2, none, .ROUTED, 1⟩], []⟩ "s1" .COMPLETED
        "t" [] none [("expected_version", .vInt 5)]).2.success = false ∧
      (transition ⟨[⟨"s1", "h1", "f.pdf", 10, 2, none, .ROUTED, 1⟩], []⟩ "s1" .COMPLETED
        "t" [] none [("expected_version", .vInt 5)]).2.error_type =
        some .CONCURRENT_MODIFICATION ∧
      (transition ⟨[⟨"s1", "h1", "f.pdf", 10, 2, none, .ROUTED, 1⟩], []⟩ "s1" .COMPLETED
        "t" [] none [("expected_version", .vInt 5)]).1 =
        ⟨[⟨"s1", "h1", "f.pdf", 10, 2, none, .ROUTED, 1⟩], []⟩) :=
  ⟨by decide, by decide, by decide,
    C3_version_mismatch_precedes_legality _ "s1" ⟨"s1", "h1", "f.pdf", 10, 2, none, .ROUTED, 1⟩
      .COMPLETED "t" [] none [("expected_version", .vInt 5)] 5
      (by decide) (by decide) (by decide)⟩

/-- C5: `create_statement` always yields a record in `UPLOADED` at
`state_version` 1 and appends exactly one journal row for that statement,
with `from_state = none`, in the same atomic step as the record insert
(the embedding commits both in one store update). -/
theorem C5_create_statement_initial
    (db : DB) (statement_id sha256 original_filename : String)
    (file_size_bytes page_count : Nat) (storage_path : Option String) :
    (create_statement db statement_id sha256 original_filename file_size_bytes
      page_count storage_path).2.current_state = .UPLOADED ∧
    (create_statement db statement_id sha256 original_filename file_size_bytes
      page_count storage_path).2.state_version = 1 ∧
    (create_statement db statement_id sha256 original_filename file_size_bytes
      page_count storage_path).1.history =
      db.history ++ [⟨statement_id, none, .UPLOADED, "upload", none, none, none⟩] ∧
    (create_statement db statement_id sha256 original_filename file_size_bytes
      page_count storage_path).1.statements =
      db.statements ++ [(create_statement db statement_id sha256 original_filename
        file_size_bytes page_count storage_path).2] :=
  ⟨rfl, rfl, rfl, rfl⟩

/-- C10: `force_transition` consults neither the transition matrix nor
terminality — for every existing record, whatever its current state
(`COMPLETED` included), and every target state, it succeeds, sets
`current_state` to the target and increments `state_version` by 1. -/
theorem C10_force_transition_unrestricted
    (db : DB) (statement_id : String) (st : Statement) (to_state : State)
    (reason actor : String)
    (hfound : getStatement db statement_id = some st) :
    (force_transition db statement_id to_state reason actor).2.success = true ∧
    (force_transition db statement_id to_state reason actor).2.error_type = none ∧
    getStatement (force_transition db statement_id to_state reason actor).1 statement_id =
      some { st with current_state := to_state, state_version := st.state_version + 1 } := by
  have h := hfound
  simp only [getStatement] at h
  refine ⟨by simp [force_transition, hfound], by simp [force_transition, hfound], ?_⟩
  simp only [force_transition, hfound]
  simp only [getStatement]
  exact find?_setStatement db.statements statement_id st
    { st with current_state := to_state, state_version := st.state_version + 1 } h rfl

/-- C10 witness: a record already in the terminal state `COMPLETED` is
force-moved to `UPLOADED`. -/
theorem C10_force_transition_unrestricted_witness :
    getStatement ⟨[⟨"s1", "h1", "f.pdf", 10, 2, none, .COMPLETED, 7⟩], []⟩ "s1" =
      some ⟨"s1", "h1", "f.pdf", 10, 2, none, .COMPLETED, 7⟩ ∧
    ((force_transition ⟨[⟨"s1", "h1", "f.pdf", 10, 2, none, .COMPLETED, 7⟩], []⟩ "s1"
        .UPLOADED "r" "a").2.success = true ∧
      (force_transition ⟨[⟨"s1", "h1", "f.pdf", 10, 2, none, .COMPLETED, 7⟩], []⟩ "s1"
        .UPLOADED "r" "a").2.error_type = none ∧
      getStatement (force_transition ⟨[⟨"s1", "h1", "f.pdf", 10, 2, none, .COMPLETED, 7⟩], []⟩
        "s1" .UPLOADED "r" "a").1 "s1" =
        some ⟨"s1", "h1", "f.pdf", 10, 2, none, .UPLOADED, 8⟩) :=
  ⟨by decide,
    C10_force_transition_unrestricted _ "s1" ⟨"s1", "h1", "f.pdf", 10, 2, none, .COMPLETED, 7⟩
      .UPLOADED "r" "a" (by decide)⟩

/-- C6: for an existing record in any non-terminal state,
`force_transition` to `COMPLETED` succeeds without legality, artifact or
version checks, increments `state_version` by exactly 1, and appends
exactly one journal row whose metadata carries `forced = true` together
with the given actor and reason. -/
theorem C6_force_transition_to_completed
    (db : DB) (statement_id : String) (st : Statement) (reason actor : String)
    (hfound : getStatement db statement_id = some st)
    (_hnonterm : st.current_state ≠ .COMPLETED) :
    (force_transition db statement_id .COMPLETED reason actor).2.success = true ∧
    (force_transition db statement_id .COMPLETED reason actor).2.error_type = none ∧
    getStatement (force_transition db statement_id .COMPLETED reason actor).1 statement_id =
      some { st with current_state := .COMPLETED, state_version := st.state_version + 1 } ∧
    (force_transition db statement_id .COMPLETED reason actor).1.history =
      db.history ++ [⟨statement_id, some st.current_state, .COMPLETED, "admin_force", none, none,
        some [("actor", .vStr actor), ("reason", .vStr reason), ("forced", .vBool true)]⟩] := by
  have h := hfound
  simp only [getStatement] at h
  refine ⟨by simp [force_transition, hfound], by simp [force_transition, hfound], ?_, ?_⟩
  · simp only [force_transition, hfound]
    simp only [getStatement]
    exact find?_setStatement db.statements statement_id st
      { st with current_state := .COMPLETED, state_version := st.state_version + 1 } h rfl
  · simp [force_transition, hfound]

/-- C6 witness: a record in `RECONCILING` (non-terminal) at version 3 is
force-completed by actor `"admin"` for reason `"stuck"`. -/
theorem C6_force_transition_to_completed_witness :
    getStatement ⟨[⟨"s1", "h1", "f.pdf", 10, 2, none, .RECONCILING, 3⟩], []⟩ "s1" =
      some ⟨"s1", "h1", "f.pdf", 10, 2, none, .RECONCILING, 3⟩ ∧
    State.RECONCILING ≠ State.COMPLETED ∧
    ((force_transition ⟨[⟨"s1", "h1", "f.pdf", 10, 2, none, .RECONCILING, 3⟩], []⟩ "s1"
        .COMPLETED "stuck" "admin").2.success = true ∧
      (force_transition ⟨[⟨"s1", "h1", "f.pdf", 10, 2, none, .RECONCILING, 3⟩], []⟩ "s1"
        .COMPLETED "stuck" "admin").2.error_type = none ∧
      getStatement (force_transition ⟨[⟨"s1", "h1", "f.pdf", 10, 2, none, .RECONCILING, 3⟩], []⟩
        "s1" .COMPLETED "stuck" "admin").1 "s1" =
        some ⟨"s1", "h1", "f.pdf", 10, 2, none, .COMPLETED, 4⟩ ∧
      (force_transition ⟨[⟨"s1", "h1", "f.pdf", 10, 2, none, .RECONCILING, 3⟩], []⟩ "s1"
        .COMPLETED "stuck" "admin").1.history =
        [] ++ [⟨"s1", some .RECONCILING, .COMPLETED, "admin_force", none, none,
          some [("actor", .vStr "admin"), ("reason", .vStr "stuck"), ("forced", .vBool true)]⟩]) :=
  ⟨by decide, by decide,
    C6_force_transition_to_completed _ "s1" ⟨"s1", "h1", "f.pdf", 10, 2, none, .RECONCILING, 3⟩
      "stuck" "admin" (by decide) (by decide)⟩

/-- C4: on a legal edge with no version mismatch, (a) a required artifact
name absent from the supplied mapping makes `transition` fail with
`MISSING_ARTIFACT` and no mutation, and (b) a destination state absent
from `STATE_REQUIRED_ARTIFACTS` requires no artifacts: the empty
artifacts mapping succeeds. -/
theorem C4_required_artifacts :
    (∀ (db : DB) (statement_id : String) (st : Statement) (to_state : State)
      (trigger : String) (artifacts : StrDict) (worker_id : Option String)
      (metadata : StrDict) (a : String),
      getStatement db statement_id = some st →
      expectedVersionOk metadata st.state_version = true →
      is_valid_transition st.current_state to_state = true →
      a ∈ get_required_artifacts to_state →
      artifacts.hasKey a = false →
      (transition db statement_id to_state trigger artifacts worker_id metadata).2.success
        = false ∧
      (transition db statement_id to_state trigger artifacts worker_id metadata).2.error_type
        = some .MISSING_ARTIFACT ∧
      (transition db statement_id to_state trigger artifacts worker_id metadata).1 = db) ∧
    (∀ (db : DB) (statement_id : String) (st : Statement) (to_state : State)
      (trigger : String) (worker_id : Option String) (metadata : StrDict),
      getStatement db statement_id = some st →
      expectedVersionOk metadata st.state_version = true →
      is_valid_transition st.current_state to_state = true →
      STATE_REQUIRED_ARTIFACTS to_state = none →
      (transition db statement_id to_state trigger [] worker_id metadata).2.success = true ∧
      (transition db statement_id to_state trigger [] worker_id metadata).2.error_type
        = none) := by
  constructor
  · intro db statement_id st to_state trigger artifacts worker_id metadata a
      hfound hver hedge ha hkey
    have hmem : a ∈ (get_required_artifacts to_state).filter
        (fun a => !(artifacts.hasKey a)) :=
      List.mem_filter.mpr ⟨ha, by simp [hkey]⟩
    have hmiss : (get_required_artifacts to_state).filter
        (fun a => !(artifacts.hasKey a)) ≠ [] := List.ne_nil_of_mem hmem
    simp [transition, hfound, hver, hedge, hmiss]
  · intro db statement_id st to_state trigger worker_id metadata hfound hver hedge hnone
    have hreq : get_required_artifacts to_state = [] := by
      simp [get_required_artifacts, hnone]
    simp [transition, hfound, hver, hedge, hreq]

/-- C4 witness: (a) `CLASSIFIED → ROUTED` without the required
`route_decision` artifact is rejected; (b) `ROUTED → TEMPLATE_SELECTED`
(a destination with no required-artifacts entry) succeeds with an empty
artifacts mapping. -/
theorem C4_required_artifacts_witness :
    (getStatement ⟨[⟨"s1", "h1", "f.pdf", 10, 2, none, .CLASSIFIED, 1⟩], []⟩ "s1" =
        some ⟨"s1", "h1", "f.pdf", 10, 2, none, .CLASSIFIED, 1⟩ ∧
      "route_decision" ∈ get_required_artifacts .ROUTED ∧
      StrDict.hasKey [] "route_decision" = false ∧
      (transition ⟨[⟨"s1", "h1", "f.pdf", 10, 2, none, .CLASSIFIED, 1⟩], []⟩ "s1" .ROUTED
        "t" [] none []).2.error_type = some .MISSING_ARTIFACT ∧
      (transition ⟨[⟨"s1", "h1", "f.pdf", 10, 2, none, .CLASSIFIED, 1⟩], []⟩ "s1" .ROUTED
        "t" [] none []).1 = ⟨[⟨"s1", "h1", "f.pdf", 10, 2, none, .CLASSIFIED, 1⟩], []⟩) ∧
    (STATE_REQUIRED_ARTIFACTS .TEMPLATE_SELECTED = none ∧
      (transition ⟨[⟨"s1", "h1", "f.pdf", 10, 2, none, .ROUTED, 1⟩], []⟩ "s1"
        .TEMPLATE_SELECTED "t" [] none []).2.success = true) :=
  ⟨⟨by decide, by decide, by decide,
      (C4_required_artifacts.1 _ "s1" ⟨"s1", "h1", "f.pdf", 10, 2, none, .CLASSIFIED, 1⟩
        .ROUTED "t" [] none [] "route_decision"
        (by decide) (by decide) (by decide) (by decide) (by decide)).2.1,
      (C4_required_artifacts.1 _ "s1" ⟨"s1", "h1", "f.pdf", 10, 2, none, .CLASSIFIED, 1⟩
        .ROUTED "t" [] none [] "route_decision"
        (by decide) (by decide) (by decide) (by decide) (by decide)).2.2⟩,
    ⟨by decide,
      (C4_required_artifacts.2 _ "s1" ⟨"s1", "h1", "f.pdf", 10, 2, none, .ROUTED, 1⟩
        .TEMPLATE_SELECTED "t" none [] (by decide) (by decide) (by decide) (by decide)).1⟩⟩

/-- C2: a successful `transition` (existing id, version check passed,
legal edge, every required artifact supplied) sets `current_state` to the
target, increments `state_version` by exactly 1, appends exactly one
journal row recording `from_state`, `to_state`, trigger, worker id, the
artifact names and the metadata, and returns a success result carrying
the previous state, the new state and no error kind. -/
theorem C2_successful_transition
    (db : DB) (statement_id : String) (st : Statement) (to_state : State)
    (trigger : String) (artifacts : StrDict) (worker_id : Option String) (metadata : StrDict)
    (hfound : getStatement db statement_id = some st)
    (hver : expectedVersionOk metadata st.state_version = true)
    (hedge : is_valid_transition st.current_state to_state = true)
    (hart : ∀ a ∈ get_required_artifacts to_state, artifacts.hasKey a = true) :
    (transition db statement_id to_state trigger artifacts worker_id metadata).2.success
      = true ∧
    (transition db statement_id to_state trigger artifacts worker_id metadata).2.previous_state
      = st.current_state.value ∧
    (transition db statement_id to_state trigger artifacts worker_id metadata).2.current_state
      = to_state.value ∧
    (transition db statement_id to_state trigger artifacts worker_id metadata).2.error_type
      = none ∧
    getStatement (transition db statement_id to_state trigger artifacts worker_id metadata).1
      statement_id =
      some { st with current_state := to_state, state_version := st.state_version + 1 } ∧
    (transition db statement_id to_state trigger artifacts worker_id metadata).1.history =
      db.history ++ [⟨statement_id, some st.current_state, to_state, trigger, worker_id,
        some artifacts.keys, some metadata⟩] := by
  have h := hfound
  simp only [getStatement] at h
  have hmiss : (get_required_artifacts to_state).filter
      (fun a => !(artifacts.hasKey a)) = [] :=
    List.filter_eq_nil_iff.mpr (fun a ha => by simp [hart a ha])
  refine ⟨by simp [transition, hfound, hver, hedge, hmiss],
    by simp [transition, hfound, hver, hedge, hmiss],
    by simp [transition, hfound, hver, hedge, hmiss],
    by simp [transition, hfound, hver, hedge, hmiss], ?_,
    by simp [transition, hfound, hver, hedge, hmiss]⟩
  simp only [transition, hfound, hver, hedge, hmiss]
  simp only [Bool.true_eq_false, not_false_eq_true, if_true, ne_eq,
    not_true_eq_false, if_false, reduceIte]
  simp only [getStatement]
  exact find?_setStatement db.statements statement_id st
    { st with current_state := to_state, state_version := st.state_version + 1 } h rfl

/-- C2 witness: `CLASSIFIED → ROUTED` with the required `route_decision`
artifact, a worker id and metadata. -/
theorem C2_successful_transition_witness :
    getStatement ⟨[⟨"s1", "h1", "f.pdf", 10, 2, none, .CLASSIFIED, 2⟩], []⟩ "s1" =
      some ⟨"s1", "h1", "f.pdf", 10, 2, none, .CLASSIFIED, 2⟩ ∧
    expectedVersionOk [("note", .vStr "x")] 2 = true ∧
    is_valid_transition .CLASSIFIED .ROUTED = true ∧
    (∀ a ∈ get_required_artifacts .ROUTED,
      StrDict.hasKey [("route_decision", .vStr "p")] a = true) ∧
    ((transition ⟨[⟨"s1", "h1", "f.pdf", 10, 2, none, .CLASSIFIED, 2⟩], []⟩ "s1" .ROUTED
        "worker_done" [("route_decision", .vStr "p")] (some "w1")
        [("note", .vStr "x")]).2.success = true ∧
      (transition ⟨[⟨"s1", "h1", "f.pdf", 10, 2, none, .CLASSIFIED, 2⟩], []⟩ "s1" .ROUTED
        "worker_done" [("route_decision", .vStr "p")] (some "w1")
        [("note", .vStr "x")]).2.previous_state = State.CLASSIFIED.value ∧
      (transition ⟨[⟨"s1", "h1", "f.pdf", 10, 2, none, .CLASSIFIED, 2⟩], []⟩ "s1" .ROUTED
        "worker_done" [("route_decision", .vStr "p")] (some "w1")
        [("note", .vStr "x")]).2.current_state = State.ROUTED.value ∧
      (transition ⟨[⟨"s1", "h1", "f.pdf", 10, 2, none, .CLASSIFIED, 2⟩], []⟩ "s1" .ROUTED
        "worker_done" [("route_decision", .vStr "p")] (some "w1")
        [("note", .vStr "x")]).2.error_type = none ∧
      getStatement (transition ⟨[⟨"s1", "h1", "f.pdf", 10, 2, none, .CLASSIFIED, 2⟩], []⟩
        "s1" .ROUTED "worker_done" [("route_decision", .vStr "p")] (some "w1")
        [("note", .vStr "x")]).1 "s1" =
        some ⟨"s1", "h1", "f.pdf", 10, 2, none, .ROUTED, 3⟩ ∧
      (transition ⟨[⟨"s1", "h1", "f.pdf", 10, 2, none, .CLASSIFIED, 2⟩], []⟩ "s1" .ROUTED
        "worker_done" [("route_decision", .vStr "p")] (some "w1")
        [("note", .vStr "x")]).1.history =
        [] ++ [⟨"s1", some .CLASSIFIED, .ROUTED, "worker_done", some "w1",
          some (StrDict.keys [("route_decision", .vStr "p")]),
          some [("note", .vStr "x")]⟩]) :=
  ⟨by decide, by decide, by decide, by decide,
    C2_successful_transition _ "s1" ⟨"s1", "h1", "f.pdf", 10, 2, none, .CLASSIFIED, 2⟩
      .ROUTED "worker_done" [("route_decision", .vStr "p")] (some "w1")
      [("note", .vStr "x")] (by decide) (by decide) (by decide) (by decide)⟩

/-- C8: for a statement created by `create_statement` under a fresh id and
then driven by any sequence of `transition` / `force_transition` calls,
replaying `get_state_history` oldest-first (re-applying each
`from_state → to_state` pair) reconstructs the record's `current_state`,
and the record's `state_version` equals the number of journal rows for
that statement. -/
theorem C8_history_reconstructs_state
    (db : DB) (statement_id sha256 original_filename : String)
    (file_size_bytes page_count : Nat) (storage_path : Option String) (ops : List Op)
    (hst : ∀ s ∈ db.statements, s.id ≠ statement_id)
    (hhist : ∀ r ∈ db.history, r.statement_id ≠ statement_id) :
    ∃ st, getStatement (runOps (create_statement db statement_id sha256 original_filename
        file_size_bytes page_count storage_path).1 statement_id ops) statement_id = some st ∧
      replay (get_state_history (runOps (create_statement db statement_id sha256
        original_filename file_size_bytes page_count storage_path).1 statement_id ops)
        statement_id) = some st.current_state ∧
      (get_state_history (runOps (create_statement db statement_id sha256 original_filename
        file_size_bytes page_count storage_path).1 statement_id ops) statement_id).length =
        st.state_version :=
  lifecycleInv_runOps _ statement_id ops
    (lifecycleInv_create db statement_id sha256 original_filename file_size_bytes
      page_count storage_path hst hhist)

/-- C8 witness: an empty store, one created statement, one organic
transition to `INGESTED` and one forced completion. -/
theorem C8_history_reconstructs_state_witness :
    (∀ s ∈ (⟨[], []⟩ : DB).statements, s.id ≠ "s1") ∧
    (∀ r ∈ (⟨[], []⟩ : DB).history, r.statement_id ≠ "s1") ∧
    (∃ st, getStatement (runOps (create_statement ⟨[], []⟩ "s1" "h1" "f.pdf" 10 2 none).1
        "s1" [.trans .INGESTED "ingest" [("ingest_receipt", .vStr "p")] none [],
          .force .COMPLETED "stuck" "admin"]) "s1" = some st ∧
      replay (get_state_history (runOps (create_statement ⟨[], []⟩ "s1" "h1" "f.pdf" 10 2
        none).1 "s1" [.trans .INGESTED "ingest" [("ingest_receipt", .vStr "p")] none [],
          .force .COMPLETED "stuck" "admin"]) "s1") = some st.current_state ∧
      (get_state_history (runOps (create_statement ⟨[], []⟩ "s1" "h1" "f.pdf" 10 2 none).1
        "s1" [.trans .INGESTED "ingest" [("ingest_receipt", .vStr "p")] none [],
          .force .COMPLETED "stuck" "admin"]) "s1").length = st.state_version) :=
  ⟨by simp, by simp,
    C8_history_reconstructs_state ⟨[], []⟩ "s1" "h1" "f.pdf" 10 2 none
      [.trans .INGESTED "ingest" [("ingest_receipt", .vStr "p")] none [],
        .force .COMPLETED "stuck" "admin"] (by simp) (by simp)⟩

end BSIE
